import Mathlib

/-!
Verification of the neolink v4l bridge core: the connection supervisor
(`src/v4l/mod.rs`) and the output-format negotiation / frame delivery
engine (`src/v4l/v4lt.rs`), shallowly embedded as executable Lean
definitions.  Media units are the `BcMedia` values pulled from the
camera session channel; device interactions (v4l set-format calls,
stream creation, frame deliveries) are recorded as an event trace.
-/

namespace Neolink

/-- Video codec of a frame unit (`VideoType` in the source). -/
inductive VideoType
  | H264
  | H265
deriving DecidableEq, Repr

/-- Sink stream format (`StreamFormat` in `v4lt.rs`). -/
inductive StreamFormat
  | H264
  | H265
deriving DecidableEq, Repr

/-- Payload of a `BcMedia::Iframe` / `BcMedia::Pframe`: a codec tag and the
compressed frame bytes (bytes modelled as `Nat`). -/
structure FrameData where
  video_type : VideoType
  data : List Nat
deriving DecidableEq, Repr

/-- Payload of a `BcMedia::InfoV1` / `BcMedia::InfoV2` descriptor unit. -/
structure InfoData where
  video_width : Nat
  video_height : Nat
  fps : Nat
deriving DecidableEq, Repr

/-- A media unit pulled from the camera session.  `other` stands for the
unit kinds (audio, …) that `run` ignores in its `_ => {}` arms. -/
inductive BcMedia
  | Iframe (payload : FrameData)
  | Pframe (payload : FrameData)
  | InfoV1 (info : InfoData)
  | InfoV2 (info : InfoData)
  | other
deriving DecidableEq, Repr

/-- The format fields of `V4lDevice`: `video_width`, `video_height`,
`video_fps`, `video_format` (all `Option`, all `None` at construction). -/
structure FormatState where
  video_width : Option Nat
  video_height : Option Nat
  video_fps : Option Nat
  video_format : Option StreamFormat
deriving DecidableEq, Repr

/-- The state of a freshly constructed `V4lDevice` (`from_device`). -/
def initState : FormatState := ⟨none, none, none, none⟩

/-- Device-facing events performed by the `V4lDevice` code: the
`Output::set_format` and `Output::set_params` calls issued by
`apply_format`, the `MmapStream` creation in `get_stream`, and each frame
write of the delivery loop. -/
inductive Ev
  | devSetFormat (width height : Nat) (fourcc : String)
  | devSetParams (fps : Nat)
  | createStream
  | deliver (video_type : VideoType) (payload : List Nat)
deriving DecidableEq, Repr

/-- The fourcc string `apply_format` chooses for each codec
(`b"AVC1"` / `b"HEVC"`). -/
def fourccOf : StreamFormat → String
  | .H264 => "AVC1"
  | .H265 => "HEVC"

/-- `V4lDevice::apply_format`: returns immediately when the codec is
unknown; issues the device `set_format` and `set_params` calls only when
width, height and fps are also all known.  The returned list is the trace
of device calls issued. -/
def apply_format (s : FormatState) : List Ev :=
  match s.video_format with
  | none => []
  | some f =>
    if s.video_width.isSome && s.video_height.isSome && s.video_fps.isSome then
      [Ev.devSetFormat (s.video_width.getD 0) (s.video_height.getD 0) (fourccOf f),
       Ev.devSetParams (s.video_fps.getD 0)]
    else
      []

/-- `V4lDevice::set_format`: for a `Some` codec differing from the stored
one, store it and run `apply_format`; otherwise do nothing. -/
def set_format (format : Option StreamFormat) (s : FormatState) :
    FormatState × List Ev :=
  match format with
  | some f =>
    if some f ≠ s.video_format then
      let s1 := { s with video_format := some f }
      (s1, apply_format s1)
    else
      (s, [])
  | none => (s, [])

/-- `V4lDevice::set_resolution`: store width and height, run
`apply_format`. -/
def set_resolution (width height : Nat) (s : FormatState) :
    FormatState × List Ev :=
  let s1 := { s with video_width := some width, video_height := some height }
  (s1, apply_format s1)

/-- `V4lDevice::set_fps`: store fps, run `apply_format`. -/
def set_fps (fps : Nat) (s : FormatState) : FormatState × List Ev :=
  let s1 := { s with video_fps := some fps }
  (s1, apply_format s1)

/-- One iteration body of the bootstrap loop of `V4lDevice::run`
(the `match media { … }` on lines 81–107). -/
def stepBoot (s : FormatState) : BcMedia → FormatState × List Ev
  | .Iframe payload =>
    let video_type := match payload.video_type with
      | .H264 => StreamFormat.H264
      | .H265 => StreamFormat.H265
    set_format (some video_type) s
  | .Pframe payload =>
    let video_type := match payload.video_type with
      | .H264 => StreamFormat.H264
      | .H265 => StreamFormat.H265
    set_format (some video_type) s
  | .InfoV1 info =>
    let r1 := set_resolution info.video_width info.video_height s
    let r2 := set_fps info.fps r1.1
    (r2.1, r1.2 ++ r2.2)
  | .InfoV2 info =>
    let r1 := set_resolution info.video_width info.video_height s
    let r2 := set_fps info.fps r1.1
    (r2.1, r1.2 ++ r2.2)
  | .other => (s, [])

/-- The `while` condition of the bootstrap loop: some format field is
still unknown. -/
def anyNone (s : FormatState) : Bool :=
  s.video_width.isNone || s.video_height.isNone ||
  s.video_fps.isNone || s.video_format.isNone

/-- The bootstrap loop of `V4lDevice::run` (lines 74–109): while some field
is unknown and `packets <= 10`, receive one unit and process it.  The
session is modelled as the finite list of units it yields before its next
`recv` fails.  Result: final state, emitted device events, and `some rest`
when the loop exits normally (`rest` the units not yet consumed) or `none`
when `recv` fails inside the loop (the `?` makes `run` return the error,
so no stream is created). -/
def bootstrapLoop (s : FormatState) (packets : Nat) :
    List BcMedia → FormatState × List Ev × Option (List BcMedia)
  | [] =>
    if anyNone s && decide (packets ≤ 10) then (s, [], none)
    else (s, [], some [])
  | m :: rest =>
    if anyNone s && decide (packets ≤ 10) then
      let p := stepBoot s m
      let q := bootstrapLoop p.1 (packets + 1) rest
      (q.1, p.2 ++ q.2.1, q.2.2)
    else
      (s, [], some (m :: rest))

/-- The steady-state delivery loop of `V4lDevice::run` (lines 113–146):
each `Iframe`/`Pframe` is written to the sink stream, every other unit is
ignored; the loop ends when `recv` fails (end of the modelled list). -/
def deliveryLoop : List BcMedia → List Ev
  | [] => []
  | .Iframe payload :: rest => Ev.deliver payload.video_type payload.data :: deliveryLoop rest
  | .Pframe payload :: rest => Ev.deliver payload.video_type payload.data :: deliveryLoop rest
  | _ :: rest => deliveryLoop rest

/-- `V4lDevice::run` on a fresh device: bootstrap, then — whenever the
bootstrap loop exits without a `recv` error — create the sink stream
(`get_stream`) and run the delivery loop.  The result is the trace of
device events the call performs. -/
def run (media : List BcMedia) : List Ev :=
  let b := bootstrapLoop initState 0 media
  match b.2.2 with
  | none => b.2.1
  | some rest => b.2.1 ++ Ev.createStream :: deliveryLoop rest

/-- Metadata record of an acquired kernel output buffer
(`buf_out_meta` in the delivery loop): its `field` marker and its
`bytesused` used-length. -/
structure BufMeta where
  field : Nat
  bytesused : Nat
deriving DecidableEq, Repr

/-- One frame write of the delivery loop (lines 117–127 / 130–140 of
`v4lt.rs`): slice the acquired buffer to `payload.len()`
(`&mut buf_out[0..payload.data.len()]`, a panic when the payload exceeds
the buffer, modelled as `none`), `copy_from_slice` the payload into it,
and set `buf_out_meta.field = 0`.  The `bytesused` assignment in the
source is commented out, so the metadata's used-length is left as the
device handed it back. -/
def deliver_frame (buf : List Nat) (m0 : BufMeta) (payload : List Nat) :
    Option (List Nat × BufMeta) :=
  if payload.length ≤ buf.length then
    some (payload ++ buf.drop payload.length, { m0 with field := 0 })
  else
    none

/-!  The connection supervisor of `src/v4l/mod.rs`.  A connection attempt
is described by the outcomes of the external calls it makes (connect,
login, the camera-management queries); `start_video` never returns
normally (`Result<Never, _>`), so every attempt ends in some error. -/

/-- Outcome of `camera.login`: success, the `neolink_core::Error::AuthFailed`
rejection, or any other login error. -/
inductive LoginR
  | ok
  | authFail
  | otherFail
deriving DecidableEq, Repr

/-- Outcomes of the external calls `do_camera_management` makes, in call
order: the first `get_time`, `set_time`, the second `get_time`, and
`version`.  `none` is an `Err` result; for the two `get_time` calls a
successful result carries `Option Nat` (the camera clock, possibly
unset), for `version` it carries the firmware version. -/
structure MgmtSession where
  get_time1 : Option (Option Nat)
  set_time : Option Unit
  get_time2 : Option (Option Nat)
  version : Option Nat
deriving DecidableEq, Repr

/-- `do_camera_management` (mod.rs lines 201–249): `get_time()?`; when the
clock is unset, `set_time(now)?` then `get_time()?` (both results only
logged); finally `camera.version()` consumed with `if let Ok(..)`, so a
version failure is logged and never propagated.  `none` models the `Err`
the `?` operators propagate. -/
def do_camera_management (s : MgmtSession) : Option Unit :=
  match s.get_time1 with
  | none => none
  | some (some _time) => some ()
  | some none =>
    match s.set_time with
    | none => none
    | some _ =>
      match s.get_time2 with
      | none => none
      | some _ => some ()

/-- The error kinds a connection attempt can end with, by the source line
that produced them. -/
inductive ErrKind
  | connectFail
  | authFail
  | loginFail
  | mgmtFail
  | streamFail
deriving DecidableEq, Repr

/-- The external-call outcomes of one connection attempt. -/
structure AttemptEnv where
  connect_ok : Bool
  login : LoginR
  mgmt : MgmtSession
deriving DecidableEq, Repr

/-- The `CameraErr` struct of mod.rs: whether the attempt had connected
(passed login) before failing, whether the failure was an authentication
rejection, and the error. -/
structure CameraErr where
  connected : Bool
  login_fail : Bool
  err : ErrKind
deriving DecidableEq, Repr

/-- `camera_main` (mod.rs lines 136–199): connect, login (setting
`login_fail` on `AuthFailed`), set `connected = true`, optionally run
`do_camera_management` behind a `?`, then `start_video` — which never
returns normally, so the attempt always ends in a `CameraErr`. -/
def camera_main (env : AttemptEnv) (manage : Bool) : CameraErr :=
  if !env.connect_ok then
    ⟨false, false, .connectFail⟩
  else
    match env.login with
    | .authFail => ⟨false, true, .authFail⟩
    | .otherFail => ⟨false, false, .loginFail⟩
    | .ok =>
      if manage && (do_camera_management env.mgmt).isNone then
        ⟨true, false, .mgmtFail⟩
      else
        ⟨true, false, .streamFail⟩

/-- `min_backoff` of `camera_loop`, in seconds. -/
def minBackoff : Nat := 1

/-- `max_backoff` of `camera_loop`, in seconds. -/
def maxBackoff : Nat := 15

/-- `camera_loop` (mod.rs lines 94–128) over a list of attempt
environments, threading `current_backoff` (seconds): each iteration runs
`camera_main`, resets the backoff to `min_backoff` when the attempt had
connected, returns the error immediately on `login_fail`, and otherwise
sleeps `current_backoff` then doubles it capped at `max_backoff`.
Result: the list of sleep durations performed, and `some err` when the
loop returned on an authentication failure (`none` when the modelled
attempt list ran out — the real loop never exits otherwise). -/
def camera_loop (manage : Bool) (current_backoff : Nat) :
    List AttemptEnv → List Nat × Option ErrKind
  | [] => ([], none)
  | env :: rest =>
    let cam_err := camera_main env manage
    let b1 := if cam_err.connected then minBackoff else current_backoff
    if cam_err.login_fail then
      ([], some cam_err.err)
    else
      let r := camera_loop manage (min maxBackoff (b1 * 2)) rest
      (b1 :: r.1, r.2)

/-- Is an event a frame delivery? -/
def isDeliver : Ev → Bool
  | .deliver _ _ => true
  | _ => false

/-- Is an event the sink stream creation? -/
def isCreate : Ev → Bool
  | .createStream => true
  | _ => false

/-- The events of a trace that occur strictly after the sink stream was
created (empty when no `createStream` event occurs). -/
def afterCreate (l : List Ev) : List Ev :=
  (l.dropWhile (fun e => !isCreate e)).drop 1

/-- All four format fields are known. -/
def allKnown (s : FormatState) : Bool :=
  s.video_width.isSome && s.video_height.isSome &&
  s.video_fps.isSome && s.video_format.isSome

section FormatLemmas

theorem apply_format_ne_nil_iff (s : FormatState) :
    apply_format s ≠ [] ↔ allKnown s = true := by
  rcases s with ⟨w, h, f, c⟩
  cases c <;> cases w <;> cases h <;> cases f <;>
    simp [apply_format, allKnown]

theorem apply_format_no_create (s : FormatState) :
    (apply_format s).all (fun e => !isCreate e) = true := by
  rcases s with ⟨w, h, f, c⟩
  cases c <;> cases w <;> cases h <;> cases f <;>
    simp [apply_format, isCreate]

theorem stepBoot_no_create (s : FormatState) (m : BcMedia) :
    ((stepBoot s m).2).all (fun e => !isCreate e) = true := by
  cases m with
  | Iframe payload =>
    cases payload.video_type <;>
      simp only [stepBoot, set_format] <;> split <;>
        simp [apply_format_no_create]
  | Pframe payload =>
    cases payload.video_type <;>
      simp only [stepBoot, set_format] <;> split <;>
        simp [apply_format_no_create]
  | InfoV1 info =>
    simp [stepBoot, set_resolution, set_fps, List.all_append,
      apply_format_no_create]
  | InfoV2 info =>
    simp [stepBoot, set_resolution, set_fps, List.all_append,
      apply_format_no_create]
  | other => simp [stepBoot]

theorem bootstrapLoop_no_create (media : List BcMedia) :
    ∀ (s : FormatState) (packets : Nat),
      ((bootstrapLoop s packets media).2.1).all (fun e => !isCreate e) = true := by
  induction media with
  | nil =>
    intro s packets
    unfold bootstrapLoop
    split <;> simp
  | cons m rest ih =>
    intro s packets
    unfold bootstrapLoop
    split
    · simp [List.all_append, stepBoot_no_create, ih]
    · simp

theorem deliveryLoop_all_deliver (media : List BcMedia) :
    (deliveryLoop media).all isDeliver = true := by
  induction media with
  | nil => rfl
  | cons m rest ih => cases m <;> simp [deliveryLoop, isDeliver, ih]

theorem dropWhile_append_of_all {p : Ev → Bool} (l1 l2 : List Ev)
    (h : l1.all p = true) :
    (l1 ++ l2).dropWhile p = l2.dropWhile p := by
  induction l1 with
  | nil => simp
  | cons a t ih =>
    simp only [List.all_cons, Bool.and_eq_true] at h
    simp [List.dropWhile_cons, h.1, ih h.2]

theorem dropWhile_of_all {p : Ev → Bool} (l : List Ev) (h : l.all p = true) :
    l.dropWhile p = [] := by
  induction l with
  | nil => simp
  | cons a t ih =>
    simp only [List.all_cons, Bool.and_eq_true] at h
    simp [List.dropWhile_cons, h.1, ih h.2]

end FormatLemmas

/-- Claim C1 (code_bug evaluation): when the bootstrap budget is
exhausted before any format field is known — here eleven ignorable units
followed by a keyframe — `run` does not propagate a bootstrap error: it
creates the sink stream anyway (with the format state still the fresh
all-`none` state, so `apply_format` never touched the device) and then
delivers the frame into the partially-specified sink. -/
theorem bootstrap_exhaustion_creates_partial_sink :
    run (List.replicate 11 BcMedia.other ++ [BcMedia.Iframe ⟨.H264, [170]⟩]) =
      [Ev.createStream, Ev.deliver .H264 [170]] ∧
    (bootstrapLoop initState 0
        (List.replicate 11 BcMedia.other ++ [BcMedia.Iframe ⟨.H264, [170]⟩])).1 =
      initState := by
  decide

/-- Claim C2 (code_bug evaluation): a frame write can occur before
width/height/fps/codec are all known.  Eleven descriptor units exhaust
the bootstrap budget with the codec still unknown, after which `run`
creates the stream and delivers the next keyframe even though the sink
format was never set (the trace holds no `devSetFormat` event before the
`deliver`). -/
theorem frame_write_without_known_format :
    run (List.replicate 11 (BcMedia.InfoV1 ⟨64, 64, 15⟩) ++
        [BcMedia.Iframe ⟨.H264, [1, 2, 3]⟩]) =
      [Ev.createStream, Ev.deliver .H264 [1, 2, 3]] ∧
    (bootstrapLoop initState 0
        (List.replicate 11 (BcMedia.InfoV1 ⟨64, 64, 15⟩) ++
          [BcMedia.Iframe ⟨.H264, [1, 2, 3]⟩])).1.video_format = none := by
  decide

/-- Claim C3 (counterexample): the delivery code does not set the buffer
metadata's used-length to the payload length — the `bytesused`
assignment is commented out in the source — so for a 1-byte payload the
returned metadata still carries the used-length the device handed back
(here 0), not 1. -/
theorem bytesused_not_set_counterexample :
    deliver_frame [7, 7, 7, 7] ⟨5, 0⟩ [170] =
      some ([170, 7, 7, 7], ⟨0, 0⟩) ∧
    ¬ (deliver_frame [7, 7, 7, 7] ⟨5, 0⟩ [170]).map
        (fun r => r.2.bytesused) = some 1 := by
  decide

/-- Claim C3 (amended): for every delivered frame with payload of length
L fitting the acquired buffer, exactly the first L bytes of the buffer
are overwritten with a byte-for-byte copy of the payload, the remainder
of the buffer is untouched, and the metadata's field marker is set — but
the used-length field is left unchanged (its assignment is commented out
in the source). -/
theorem deliver_frame_exact_copy (buf : List Nat) (m0 : BufMeta)
    (payload : List Nat) (h : payload.length ≤ buf.length) :
    ∃ buf1 m1, deliver_frame buf m0 payload = some (buf1, m1) ∧
      buf1.take payload.length = payload ∧
      buf1.drop payload.length = buf.drop payload.length ∧
      buf1.length = buf.length ∧
      m1.field = 0 ∧
      m1.bytesused = m0.bytesused := by
  refine ⟨payload ++ buf.drop payload.length, { m0 with field := 0 }, ?_, ?_, ?_, ?_, rfl, rfl⟩
  · simp [deliver_frame, h]
  · simp
  · simp
  · simp
    omega

theorem deliver_frame_exact_copy_witness :
    ([1, 2] : List Nat).length ≤ ([9, 9, 9] : List Nat).length ∧
    (∃ buf1 m1, deliver_frame [9, 9, 9] ⟨3, 4⟩ [1, 2] = some (buf1, m1) ∧
      buf1.take ([1, 2] : List Nat).length = [1, 2] ∧
      buf1.drop ([1, 2] : List Nat).length =
        ([9, 9, 9] : List Nat).drop ([1, 2] : List Nat).length ∧
      buf1.length = ([9, 9, 9] : List Nat).length ∧
      m1.field = 0 ∧
      m1.bytesused = (⟨3, 4⟩ : BufMeta).bytesused) :=
  ⟨by decide, deliver_frame_exact_copy [9, 9, 9] ⟨3, 4⟩ [1, 2] (by decide)⟩

/-- The concrete session of the C4 counterexample: a descriptor, an H264
keyframe (committing the format during bootstrap), then an H264 and an
H265 keyframe delivered live. -/
def c4Input : List BcMedia :=
  [.InfoV1 ⟨1920, 1080, 15⟩, .Iframe ⟨.H264, [10]⟩,
   .Iframe ⟨.H264, [11]⟩, .Iframe ⟨.H265, [12]⟩]

/-- Claim C4 (counterexample): a live codec switch from H264 to H265
after format commit does not trigger any re-apply.  The full trace shows
the H265 frame delivered after stream creation while every post-creation
event is a plain delivery — no `devSetFormat`/`devSetParams` ever
reconfigures the sink for H265, and descriptor units after commit would
fall into the ignored arm of the delivery loop. -/
theorem codec_switch_no_reapply_counterexample :
    run c4Input =
      [Ev.devSetFormat 1920 1080 "AVC1", Ev.devSetParams 15,
       Ev.createStream, Ev.deliver .H264 [11], Ev.deliver .H265 [12]] ∧
    Ev.deliver .H265 [12] ∈ afterCreate (run c4Input) ∧
    (afterCreate (run c4Input)).all isDeliver = true := by
  decide

/-- Claim C4 (amended): after the sink stream is created, no format
re-apply ever happens — every event `run` performs after the
`createStream` event is a frame delivery, for every input session;
descriptor units and codec changes arriving after commit are ignored. -/
theorem no_reapply_after_stream_creation (media : List BcMedia) :
    (afterCreate (run media)).all isDeliver = true := by
  unfold run
  cases hb : (bootstrapLoop initState 0 media).2.2 with
  | none =>
    simp only [afterCreate, hb]
    rw [dropWhile_of_all _ (bootstrapLoop_no_create media initState 0)]
    simp
  | some rest =>
    simp only [afterCreate, hb]
    rw [dropWhile_append_of_all _ _ (bootstrapLoop_no_create media initState 0)]
    simp [List.dropWhile_cons, isCreate, deliveryLoop_all_deliver]

/-- Claim C9: re-applying an already-committed format is a no-op on the
negotiator's state: with all four fields committed, `set_resolution`
with the committed width/height, `set_fps` with the committed fps, and
`set_format` with the committed codec each leave the format state
exactly as it was (the resolution/fps setters re-issue `apply_format`,
the codec setter does not even do that). -/
theorem reapply_committed_format_idempotent (w h f : Nat) (c : StreamFormat) :
    (set_resolution w h ⟨some w, some h, some f, some c⟩).1 =
      ⟨some w, some h, some f, some c⟩ ∧
    (set_fps f ⟨some w, some h, some f, some c⟩).1 =
      ⟨some w, some h, some f, some c⟩ ∧
    (set_format (some c) ⟨some w, some h, some f, some c⟩).1 =
      ⟨some w, some h, some f, some c⟩ := by
  refine ⟨rfl, rfl, ?_⟩
  simp [set_format]

/-- Claim C10: `apply_format` issues the device set-format/set-params
calls exactly when all four format fields are `Some` (it returns without
touching the device whenever any field is `None`), and every device call
emitted by `set_resolution`, `set_fps` or `set_format` happens at a
state where all four fields are known — so the kernel format is never
declared from partial information, in any call order. -/
theorem apply_only_when_fully_known (s : FormatState) (w h f : Nat)
    (fo : Option StreamFormat) :
    (apply_format s ≠ [] ↔ allKnown s = true) ∧
    ((set_resolution w h s).2 ≠ [] → allKnown (set_resolution w h s).1 = true) ∧
    ((set_fps f s).2 ≠ [] → allKnown (set_fps f s).1 = true) ∧
    ((set_format fo s).2 ≠ [] → allKnown (set_format fo s).1 = true) := by
  refine ⟨apply_format_ne_nil_iff s, ?_, ?_, ?_⟩
  · intro hne
    exact (apply_format_ne_nil_iff _).mp hne
  · intro hne
    exact (apply_format_ne_nil_iff _).mp hne
  · intro hne
    cases fo with
    | none => simp [set_format] at hne
    | some g =>
      by_cases hg : some g ≠ s.video_format
      · rw [set_format, if_pos hg] at hne ⊢
        exact (apply_format_ne_nil_iff _).mp hne
      · rw [set_format, if_neg hg] at hne
        simp at hne

theorem apply_only_when_fully_known_witness :
    (set_resolution 1920 1080 ⟨none, none, some 15, some .H264⟩).2 ≠ [] ∧
    allKnown (set_resolution 1920 1080 ⟨none, none, some 15, some .H264⟩).1 = true :=
  ⟨by decide,
   (apply_only_when_fully_known ⟨none, none, some 15, some .H264⟩ 1920 1080 0 none).2.1
     (by decide)⟩

/-- An attempt whose connection fails outright (a pure transient
`ConnectFailure`; the management outcomes are irrelevant). -/
def failEnv : AttemptEnv :=
  ⟨false, .ok, ⟨some (some 0), some (), some (some 0), some 1⟩⟩

/-- An attempt that connects, logs in, manages successfully, and then
fails while streaming (a live stream that dropped). -/
def connEnv : AttemptEnv :=
  ⟨true, .ok, ⟨some (some 0), some (), some (some 0), some 1⟩⟩

/-- An attempt whose login is rejected with `AuthFailed`. -/
def authEnv : AttemptEnv :=
  ⟨true, .authFail, ⟨some (some 0), some (), some (some 0), some 1⟩⟩

/-- Replace only the firmware-version query outcome of an attempt. -/
def setVersion (env : AttemptEnv) (v : Option Nat) : AttemptEnv :=
  { env with mgmt := { env.mgmt with version := v } }

/-- Claim C5 (counterexample): a failed camera-clock query during the
one-time management step is not recovered locally — `get_time()?`
propagates through `do_camera_management` and `camera_main` aborts the
attempt with a management error instead of continuing to streaming. -/
theorem mgmt_clock_failure_aborts_attempt :
    camera_main ⟨true, .ok, ⟨none, some (), some (some 0), some 1⟩⟩ true =
      ⟨true, false, .mgmtFail⟩ ∧
    do_camera_management ⟨none, some (), some (some 0), some 1⟩ = none ∧
    ErrKind.mgmtFail ≠ ErrKind.streamFail := by
  decide

/-- Claim C5 (amended): only the firmware-version query is always
recovered locally — the attempt's outcome is entirely independent of the
`version` result — whereas the clock calls participate through
`do_camera_management`; when the clock path succeeds (and connect/login
did), the attempt always reaches streaming. -/
theorem mgmt_version_failure_never_fatal (env : AttemptEnv) (manage : Bool)
    (v : Option Nat) :
    camera_main (setVersion env v) manage = camera_main env manage ∧
    (env.connect_ok = true → env.login = .ok →
      do_camera_management env.mgmt = some () →
      camera_main env manage = ⟨true, false, .streamFail⟩) := by
  constructor
  · rfl
  · intro h1 h2 h3
    simp [camera_main, h1, h2, h3]

theorem mgmt_version_failure_never_fatal_witness :
    camera_main (setVersion connEnv none) true = camera_main connEnv true ∧
    camera_main connEnv true = ⟨true, false, .streamFail⟩ :=
  ⟨(mgmt_version_failure_never_fatal connEnv true none).1,
   (mgmt_version_failure_never_fatal connEnv true none).2 rfl rfl rfl⟩

section BackoffLemmas

theorem camera_main_failEnv (manage : Bool) :
    camera_main failEnv manage = ⟨false, false, .connectFail⟩ := rfl

theorem camera_loop_fail_cons (manage : Bool) (b : Nat) (l : List AttemptEnv) :
    camera_loop manage b (failEnv :: l) =
      ((b :: (camera_loop manage (min maxBackoff (b * 2)) l).1),
       (camera_loop manage (min maxBackoff (b * 2)) l).2) := rfl

theorem camera_loop_replicate_fail (manage : Bool) :
    ∀ (n k b : Nat), 1 ≤ b → b ≤ 15 → k < n →
      ((camera_loop manage b (List.replicate n failEnv)).1)[k]? =
        some (min 15 (b * 2 ^ k)) := by
  intro n
  induction n with
  | zero =>
    intro k b _ _ hk
    omega
  | succ n ih =>
    intro k b h1 h15 hk
    rw [List.replicate_succ, camera_loop_fail_cons]
    cases k with
    | zero =>
      simp [Nat.min_eq_right h15]
    | succ k =>
      have hb1 : 1 ≤ min maxBackoff (b * 2) := le_min (by simp [maxBackoff]) (by omega)
      have hb15 : min maxBackoff (b * 2) ≤ 15 := by
        simp [maxBackoff]
      have := ih k (min maxBackoff (b * 2)) hb1 hb15 (by omega)
      simp only [List.getElem?_cons_succ]
      rw [this]
      congr 1
      rcases Nat.le_total (b * 2) 15 with hle | hge
      · rw [maxBackoff, Nat.min_eq_right hle]
        congr 1
        ring
      · rw [maxBackoff, Nat.min_eq_left hge]
        have hp : 1 ≤ 2 ^ k := Nat.one_le_two_pow
        have ha : (15 : ℕ) ≤ 15 * 2 ^ k := by
          calc (15 : ℕ) = 15 * 1 := by ring
          _ ≤ 15 * 2 ^ k := Nat.mul_le_mul_left 15 hp
        have hb : (15 : ℕ) ≤ b * 2 ^ (k + 1) := by
          calc (15 : ℕ) ≤ 15 * 2 ^ k := ha
          _ ≤ (b * 2) * 2 ^ k := Nat.mul_le_mul_right _ hge
          _ = b * 2 ^ (k + 1) := by ring
        rw [Nat.min_eq_left ha, Nat.min_eq_left hb]

end BackoffLemmas

/-- Claim C6: for N consecutive transient connection failures with no
intervening authenticated connection, the Nth retry sleep equals
`min(min_backoff * 2^(N-1), max_backoff)` with `min_backoff = 1s` and
`max_backoff = 15s`. -/
theorem backoff_growth (manage : Bool) (N n : Nat) (h1 : 1 ≤ N) (h2 : N ≤ n) :
    ((camera_loop manage minBackoff (List.replicate n failEnv)).1)[N - 1]? =
      some (min (minBackoff * 2 ^ (N - 1)) maxBackoff) := by
  have h := camera_loop_replicate_fail manage n (N - 1) 1 (by omega) (by omega)
    (by omega)
  rw [minBackoff, maxBackoff, h, Nat.min_comm, one_mul]

theorem backoff_growth_witness :
    1 ≤ 5 ∧ 5 ≤ 6 ∧
    ((camera_loop false minBackoff (List.replicate 6 failEnv)).1)[5 - 1]? =
      some (min (minBackoff * 2 ^ (5 - 1)) maxBackoff) :=
  ⟨by decide, by decide, backoff_growth false 5 6 (by decide) (by decide)⟩

/-- Claim C7: whatever backoff has accumulated, an attempt that passed
authentication (`connected = true`) sleeps `min_backoff` when it fails,
while an attempt that failed before authenticating sleeps the current
accumulated backoff. -/
theorem backoff_reset_on_connected (manage : Bool) (b : Nat) (env : AttemptEnv)
    (rest : List AttemptEnv)
    (h : (camera_main env manage).login_fail = false) :
    ((camera_loop manage b (env :: rest)).1)[0]? =
      some (if (camera_main env manage).connected then minBackoff else b) := by
  simp [camera_loop, h]

theorem backoff_reset_on_connected_witness :
    (camera_main connEnv false).login_fail = false ∧
    ((camera_loop false 15 (connEnv :: [failEnv])).1)[0]? =
      some (if (camera_main connEnv false).connected then minBackoff else 15) :=
  ⟨by decide, backoff_reset_on_connected false 15 connEnv [failEnv] (by decide)⟩

/-- Claim C8: once an attempt fails with the authentication rejection
(`login_fail`), the supervisor performs no sleep and no further
connection attempt — whatever attempts would have followed — and
immediately returns that attempt's error. -/
theorem auth_rejection_permanent (manage : Bool) (b : Nat) (env : AttemptEnv)
    (rest : List AttemptEnv)
    (h : (camera_main env manage).login_fail = true) :
    camera_loop manage b (env :: rest) = ([], some (camera_main env manage).err) := by
  simp [camera_loop, h]

theorem auth_rejection_permanent_witness :
    (camera_main authEnv true).login_fail = true ∧
    camera_loop true 7 (authEnv :: [failEnv, failEnv]) =
      ([], some (camera_main authEnv true).err) :=
  ⟨by decide, auth_rejection_permanent true 7 authEnv [failEnv, failEnv] (by decide)⟩

end Neolink
